import Mathlib

/-!
Verification of the `fs_watch` module of krustlet
(`crates/kubelet/src/fs_watch/mod.rs`): a filesystem watcher that, on
macOS, falls back to a polling loop (`mac::dir_watcher`) which
periodically snapshots a directory, diffs the snapshot against a cached
one, and synthesizes coalesced Create/Remove events into an unbounded
channel.

Shallow embedding conventions:

* `PathBuf` is modelled as `String`.
* A Rust `HashSet<PathBuf>` is modelled as a `List PathBuf`: the list
  order stands for the hash set's iteration order (which for Rust's
  `std::collections::HashSet` with the default `RandomState` hasher is
  some arbitrary, randomly-seeded order over the distinct elements).
  `HashSet::difference(&other)` iterates over `self` and yields the
  elements not contained in `other`, so it is modelled by `difference`
  below, a `filter` that keeps `self`'s iteration order.
* The unbounded mpsc channel is modelled by `Channel`: a buffer of items
  plus an `isOpen` flag (the receiver may have been dropped).  `send`
  appends to the buffer and succeeds exactly when the channel is open,
  mirroring `UnboundedSender::send`.
* The `error!` diagnostics sink is modelled by an accumulating list of
  message strings in the loop state.
* `tokio::fs::read_dir` (the fallible directory listing performed by
  `get_dir_list`) is an external effect; each attempt's outcome is an
  input to the loop body, of type `ListResult`.
* `time::delay_for` (the fixed-interval sleep) is modelled by a counter
  of performed sleeps in the loop state, so that control-flow questions
  about whether a path through the loop body sleeps are observable.
* `notify::Event` carries a kind, a path list and extra attributes; the
  attributes are never set by this module (`..Default::default()`), so
  the model keeps only `kind` and `paths`.  The event kinds used are
  `Create(CreateKind::Any)` and `Remove(RemoveKind::Any)`; other notify
  kinds are collapsed into `other`.
-/

namespace FsWatch

/-- Paths (`std::path::PathBuf`) are modelled as strings. -/
abbrev PathBuf := String

/-- Payload of an I/O failure (`std::io::Error`), kept opaque. -/
abbrev IoError := Nat

/-- The event kinds this module produces (`notify::event::EventKind`). -/
inductive EventKind where
  | create
  | remove
  | other
  deriving DecidableEq, Repr

/-- `notify::Event`, restricted to the fields this module sets. -/
structure Event where
  kind : EventKind
  paths : List PathBuf
  deriving DecidableEq, Repr

/-- `notify::Error`; the polling loop only ever builds `NotifyError::io`. -/
inductive NotifyError where
  | io : IoError → NotifyError
  deriving DecidableEq, Repr

/-- One channel item: `notify::Result<Event>`. -/
abbrev Item := Except NotifyError Event

instance : DecidableEq Item := fun a b =>
  match a, b with
  | Except.error x, Except.error y =>
      if h : x = y then Decidable.isTrue (by rw [h])
      else Decidable.isFalse (by simp [h])
  | Except.error _, Except.ok _ => Decidable.isFalse (by simp)
  | Except.ok _, Except.error _ => Decidable.isFalse (by simp)
  | Except.ok x, Except.ok y =>
      if h : x = y then Decidable.isTrue (by rw [h])
      else Decidable.isFalse (by simp [h])

/-- The unbounded mpsc channel, seen from the sending side: the queued
items and whether the receiving half is still alive. -/
structure Channel where
  isOpen : Bool
  buffer : List Item
  deriving DecidableEq, Repr

/-- `UnboundedSender::send`: enqueue the item and report success when the
channel is open; fail (leaving the queue unchanged) when the receiver
has been dropped. -/
def Channel.send (c : Channel) (it : Item) : Channel × Bool :=
  if c.isOpen then ({ c with buffer := c.buffer ++ [it] }, true) else (c, false)

/-- A diagnostics-sink entry (one `error!` log line). -/
abbrev Diag := String

/-- `self.difference(&other)` on hash sets: iterate `self` in its
iteration order, keeping the elements not contained in `other`. -/
def difference (self other : List PathBuf) : List PathBuf :=
  self.filter (fun p => ! other.contains p)

/-- Outcome of one `get_dir_list` attempt: either the directory's entry
set (in the fresh hash set's iteration order) or an I/O failure. -/
abbrev ListResult := Except IoError (List PathBuf)

/-- `handle_creates`: collect the difference iterator into `paths`;
return without sending if it is empty; otherwise send one
`Ok(Event { kind: Create(Any), paths })`, logging to diagnostics if the
channel is closed.  Returns the updated channel and diagnostics. -/
def handle_creates (tx : Channel) (items : List PathBuf) (diags : List Diag) :
    Channel × List Diag :=
  let paths := items
  if paths.isEmpty then (tx, diags)
  else
    let event : Event := { kind := EventKind.create, paths := paths }
    let r := tx.send (Except.ok event)
    if r.2 then (r.1, diags)
    else (r.1, diags ++ ["Unable to send event due to the channel being closed"])

/-- `handle_deletes`: same as `handle_creates` but with kind
`Remove(Any)`. -/
def handle_deletes (tx : Channel) (items : List PathBuf) (diags : List Diag) :
    Channel × List Diag :=
  let paths := items
  if paths.isEmpty then (tx, diags)
  else
    let event : Event := { kind := EventKind.remove, paths := paths }
    let r := tx.send (Except.ok event)
    if r.2 then (r.1, diags)
    else (r.1, diags ++ ["Unable to send event due to the channel being closed"])

/-- State of the spawned polling task between loop iterations. -/
structure LoopState where
  /-- `path_cache`: the cached snapshot from the last successful listing. -/
  path_cache : List PathBuf
  /-- The sending half of the channel (`tx`), including what was queued. -/
  tx : Channel
  /-- Everything logged to the diagnostics sink so far. -/
  diags : List Diag
  /-- How many times `time::delay_for(WAIT_TIME)` has been awaited. -/
  sleeps : Nat
  /-- How many loop iterations have completed (each consumed one
  `get_dir_list` outcome). -/
  cycles : Nat
  deriving DecidableEq, Repr

/-- The initialization step of `dir_watcher`'s spawned task: attempt the
first `get_dir_list`; on success cache it, on failure log to the
diagnostics sink and start with an empty cache.  Nothing is sent into
the channel either way; the channel starts open and empty. -/
def dirWatcherInit (initRes : ListResult) : LoopState :=
  match initRes with
  | Except.ok set =>
      { path_cache := set, tx := { isOpen := true, buffer := [] },
        diags := [], sleeps := 0, cycles := 0 }
  | Except.error _ =>
      { path_cache := [], tx := { isOpen := true, buffer := [] },
        diags := ["Unable to refresh directory, will attempt again"],
        sleeps := 0, cycles := 0 }

/-- One iteration of the `loop` in `dir_watcher`, driven by that
iteration's `get_dir_list` outcome.

* On `Err(e)`: log to diagnostics, send `Err(NotifyError::io(e))` into
  the channel (logging again if the send fails), then `continue` — the
  `continue` jumps back to the top of the loop, so the cache is NOT
  replaced and the sleep at the bottom of the loop body is NOT executed.
* On `Ok(current_paths)`: `handle_creates` on `current - cached`, then
  `handle_deletes` on `cached - current`, then replace the cache with
  `current_paths` unconditionally, then sleep. -/
def loopBody (res : ListResult) (s : LoopState) : LoopState :=
  match res with
  | Except.error e =>
      let d1 := s.diags ++ ["Unable to refresh directory, will attempt again"]
      let r := s.tx.send (Except.error (NotifyError.io e))
      if r.2 then
        { s with tx := r.1, diags := d1, cycles := s.cycles + 1 }
      else
        { s with
          tx := r.1,
          diags := d1 ++ ["Unable to send error due to channel being closed"],
          cycles := s.cycles + 1 }
  | Except.ok current_paths =>
      let r1 := handle_creates s.tx (difference current_paths s.path_cache) s.diags
      let r2 := handle_deletes r1.1 (difference s.path_cache current_paths) r1.2
      { path_cache := current_paths, tx := r2.1, diags := r2.2,
        sleeps := s.sleeps + 1, cycles := s.cycles + 1 }

/-- Run the polling loop through a finite list of listing outcomes, one
per iteration.  The Rust loop is infinite; any finite run corresponds to
a prefix of it. -/
def runBody (inputs : List ListResult) (s : LoopState) : LoopState :=
  match inputs with
  | [] => s
  | r :: rest => runBody rest (loopBody r s)

/-- `mac::dir_watcher`: initialize, then loop.  Returns the task state
after consuming the given listing outcomes. -/
def dir_watcher (initRes : ListResult) (inputs : List ListResult) : LoopState :=
  runBody inputs (dirWatcherInit initRes)

/-- Number of channel sends attempted by one loop iteration with the
given listing outcome and cached snapshot: the failure path always
attempts one (the `Err` item); the success path attempts one per
non-empty diff set. -/
def attemptedSends (res : ListResult) (cache : List PathBuf) : Nat :=
  match res with
  | Except.error _ => 1
  | Except.ok cur =>
      (if (difference cur cache).isEmpty then 0 else 1) +
      (if (difference cache cur).isEmpty then 0 else 1)

/-! ## The two `FileSystemWatcher::new` constructors -/

/-- Payload of a construction-time failure (`anyhow::Error`). -/
abbrev InitErr := String

/-- Outcomes of the three fallible `notify` backend calls made by the
non-macOS `FileSystemWatcher::new`: `Watcher::new_immediate`,
`watcher.configure(PreciseEvents(true))` and
`watcher.watch(path, NonRecursive)`.  These are external collaborators;
their results are inputs to the constructor model. -/
structure NotifyBackendEnv where
  new_immediate : Except InitErr Unit
  configure : Except InitErr Unit
  watch : Except InitErr Unit

/-- The non-macOS `FileSystemWatcher::new`: each backend call's error is
propagated synchronously with `?`; on success the receiver handle is
returned with a fresh open channel. -/
def new_notify (env : NotifyBackendEnv) : Except InitErr Channel := do
  env.new_immediate
  env.configure
  env.watch
  Except.ok { isOpen := true, buffer := [] }

/-- The macOS `FileSystemWatcher::new`: unconditionally
`Ok(FileSystemWatcher(mac::dir_watcher(path)))`.  `dir_watcher` spawns
the polling task and returns the receiver; it has no failure path, so
the constructor never returns an error — problems with the path surface
only later, inside the spawned task (as diagnostics and `Err` items).
The returned watcher is modelled by the spawned task's initial state
(whose `tx` holds the channel). -/
def new_mac (initRes : ListResult) : Except InitErr LoopState :=
  Except.ok (dirWatcherInit initRes)

/-! ## Concrete example states used by witnesses and counterexamples -/

/-- A loop state whose channel is open, whose cache holds one path and
whose buffer, diagnostics and counters are fresh. -/
def exampleOpenState : LoopState :=
  { path_cache := ["old"], tx := { isOpen := true, buffer := [] },
    diags := [], sleeps := 0, cycles := 0 }

/-- The same state but with the receiving half of the channel dropped. -/
def exampleClosedState : LoopState :=
  { path_cache := ["old"], tx := { isOpen := false, buffer := [] },
    diags := [], sleeps := 0, cycles := 0 }

/-! ## Helper lemmas -/

theorem mem_difference {x : PathBuf} {a b : List PathBuf} :
    x ∈ difference a b ↔ x ∈ a ∧ x ∉ b := by
  simp [difference]

theorem difference_eq_nil_of_subset {a b : List PathBuf}
    (h : ∀ x ∈ a, x ∈ b) : difference a b = [] := by
  simp only [difference, List.filter_eq_nil_iff]
  intro x hx
  simp [h x hx]

theorem difference_ne_nil_of_mem {x : PathBuf} {a b : List PathBuf}
    (ha : x ∈ a) (hb : x ∉ b) : difference a b ≠ [] := by
  intro hnil
  have : x ∈ difference a b := mem_difference.2 ⟨ha, hb⟩
  rw [hnil] at this
  exact absurd this (List.not_mem_nil x)

theorem loopBody_cycles (res : ListResult) (s : LoopState) :
    (loopBody res s).cycles = s.cycles + 1 := by
  cases res with
  | error e => cases h : s.tx.isOpen <;> simp [loopBody, Channel.send, h]
  | ok cur => rfl

theorem runBody_cycles (inputs : List ListResult) (s : LoopState) :
    (runBody inputs s).cycles = s.cycles + inputs.length := by
  induction inputs generalizing s with
  | nil => simp [runBody]
  | cons r rest ih =>
      rw [runBody, ih, loopBody_cycles]
      simp [Nat.add_assoc, Nat.add_comm 1 rest.length]

theorem handle_creates_closed (tx : Channel) (items : List PathBuf)
    (diags : List Diag) (h : tx.isOpen = false) :
    (handle_creates tx items diags).1 = tx := by
  by_cases hi : items.isEmpty = true <;> simp [handle_creates, Channel.send, h, hi]

theorem handle_deletes_closed (tx : Channel) (items : List PathBuf)
    (diags : List Diag) (h : tx.isOpen = false) :
    (handle_deletes tx items diags).1 = tx := by
  by_cases hi : items.isEmpty = true <;> simp [handle_deletes, Channel.send, h, hi]

/-! ## Claim theorems -/

/-- C5: after every poll cycle whose listing succeeded, the cached
snapshot equals the snapshot observed in that cycle — the replacement is
wholesale and unconditional, performed for every state (in particular
whether or not the channel was open, i.e. whether or not the sends
succeeded). -/
theorem cache_replaced_unconditionally (s : LoopState) (cur : List PathBuf) :
    (loopBody (Except.ok cur) s).path_cache = cur := rfl

/-- C7: a synthesized event's `paths` is never empty.  Each of
`handle_creates` and `handle_deletes` either enqueues nothing at all
(when the diff set is empty, or when the channel is closed) or enqueues
exactly one event whose `paths` is the non-empty diff set; an empty diff
never yields an empty-paths event. -/
theorem synthesized_events_never_empty (tx : Channel) (items : List PathBuf)
    (diags : List Diag) :
    ((handle_creates tx items diags).1.buffer = tx.buffer ∨
      ((handle_creates tx items diags).1.buffer =
          tx.buffer ++ [Except.ok { kind := EventKind.create, paths := items }] ∧
        items.isEmpty = false)) ∧
    ((handle_deletes tx items diags).1.buffer = tx.buffer ∨
      ((handle_deletes tx items diags).1.buffer =
          tx.buffer ++ [Except.ok { kind := EventKind.remove, paths := items }] ∧
        items.isEmpty = false)) := by
  by_cases hi : items.isEmpty = true
  · exact ⟨Or.inl (by simp [handle_creates, hi]), Or.inl (by simp [handle_deletes, hi])⟩
  · cases ho : tx.isOpen
    · exact ⟨Or.inl (by rw [handle_creates_closed tx items diags ho]),
        Or.inl (by rw [handle_deletes_closed tx items diags ho])⟩
    · refine ⟨Or.inr ⟨?_, by simpa using hi⟩, Or.inr ⟨?_, by simpa using hi⟩⟩
      · simp [handle_creates, Channel.send, hi, ho]
      · simp [handle_deletes, Channel.send, hi, ho]

/-- C3 (counterexample): the claim says a failed listing cycle proceeds
to the fixed-interval Sleep step before the next List.  It does not: the
failure arm ends in `continue`, which jumps back to the top of the loop
and skips the `time::delay_for` at the bottom of the loop body.  A
successful cycle performs the sleep (the sleep counter goes to 1), while
the failing cycle performs none (the counter stays 0, not 1). -/
theorem list_failure_sleep_cex :
    (loopBody (Except.ok ([] : List PathBuf)) (dirWatcherInit (Except.ok []))).sleeps = 1 ∧
    (loopBody (Except.error 0) (dirWatcherInit (Except.ok []))).sleeps = 0 :=
  ⟨rfl, rfl⟩

/-- C3 (amended): a poll cycle whose listing fails emits exactly one
`Err(ListError)` item into the (open) channel, leaves the cached
snapshot unchanged (so the next diff runs against the pre-failure
cache), performs no diff — and then `continue`s straight to the next
List attempt, skipping the fixed-interval sleep. -/
theorem list_failure_one_error_cache_kept (s : LoopState) (e : IoError)
    (hopen : s.tx.isOpen = true) :
    (loopBody (Except.error e) s).tx.buffer =
      s.tx.buffer ++ [Except.error (NotifyError.io e)] ∧
    (loopBody (Except.error e) s).path_cache = s.path_cache ∧
    (loopBody (Except.error e) s).sleeps = s.sleeps := by
  simp [loopBody, Channel.send, hopen]

/-- Witness for the amended C3 at a concrete state. -/
theorem list_failure_one_error_cache_kept_witness :
    exampleOpenState.tx.isOpen = true ∧
    ((loopBody (Except.error 0) exampleOpenState).tx.buffer =
        exampleOpenState.tx.buffer ++ [Except.error (NotifyError.io 0)] ∧
      (loopBody (Except.error 0) exampleOpenState).path_cache =
        exampleOpenState.path_cache ∧
      (loopBody (Except.error 0) exampleOpenState).sleeps = exampleOpenState.sleeps) :=
  ⟨rfl, list_failure_one_error_cache_kept exampleOpenState 0 rfl⟩

/-- C1 (counterexample): the claim quantifies over every pair of
disjoint path sets A and B, including B = ∅.  Take cached A = ∅ and
B = ∅ (disjoint), so current = A ∪ B = ∅: the claim demands exactly one
Create event (with `paths` = B), but the cycle enqueues no item at
all — `handle_creates` returns before sending when the diff is empty. -/
theorem create_only_cycle_cex :
    ¬ ∃ ev : Event, ev.kind = EventKind.create ∧
      (loopBody (Except.ok ([] : List PathBuf)) (dirWatcherInit (Except.ok []))).tx.buffer =
        [Except.ok ev] := by
  rintro ⟨ev, -, h⟩
  have h0 : (loopBody (Except.ok ([] : List PathBuf))
      (dirWatcherInit (Except.ok []))).tx.buffer = [] := rfl
  rw [h0] at h
  exact List.noConfusion h

/-- C1 (amended): for disjoint path sets A (the cached snapshot) and B
(paths newly present) with B non-empty, a poll cycle that diffs
cached = A against current = A ∪ B (channel open) enqueues exactly one
item: a Create event whose `paths` is, as a set, exactly B — and in
particular no Remove event. -/
theorem create_only_cycle (s : LoopState) (cur b : List PathBuf)
    (hopen : s.tx.isOpen = true) (hb : b ≠ [])
    (hdisj : s.path_cache.toFinset ∩ b.toFinset = ∅)
    (hcur : cur.toFinset = s.path_cache.toFinset ∪ b.toFinset) :
    (loopBody (Except.ok cur) s).tx.buffer =
      s.tx.buffer ++
        [Except.ok { kind := EventKind.create, paths := difference cur s.path_cache }] ∧
    (difference cur s.path_cache).toFinset = b.toFinset := by
  have hmem : ∀ x : PathBuf, x ∈ cur ↔ x ∈ s.path_cache ∨ x ∈ b := by
    intro x
    have := Finset.ext_iff.1 hcur x
    simpa [List.mem_toFinset] using this
  have hd : ∀ x : PathBuf, x ∈ b → x ∉ s.path_cache := by
    intro x hxb hxc
    have hx : x ∈ s.path_cache.toFinset ∩ b.toFinset := by
      simp [List.mem_toFinset, hxb, hxc]
    rw [hdisj] at hx
    exact absurd hx (Finset.not_mem_empty x)
  have hset : (difference cur s.path_cache).toFinset = b.toFinset := by
    apply Finset.ext
    intro x
    simp only [List.mem_toFinset, mem_difference]
    constructor
    · rintro ⟨hxc, hxn⟩
      rcases (hmem x).1 hxc with h | h
      · exact absurd h hxn
      · exact h
    · intro hxb
      exact ⟨(hmem x).2 (Or.inr hxb), hd x hxb⟩
  have hrem : difference s.path_cache cur = [] :=
    difference_eq_nil_of_subset (fun x hx => (hmem x).2 (Or.inl hx))
  obtain ⟨x0, hx0⟩ := List.exists_mem_of_ne_nil b hb
  have hcre : difference cur s.path_cache ≠ [] :=
    difference_ne_nil_of_mem ((hmem x0).2 (Or.inr hx0)) (hd x0 hx0)
  refine ⟨?_, hset⟩
  simp [loopBody, handle_creates, handle_deletes, Channel.send, hopen, hrem, hcre]

/-- Witness for the amended C1: A = {"old"}, B = {"new"},
current = {"old", "new"}. -/
theorem create_only_cycle_witness :
    exampleOpenState.tx.isOpen = true ∧
    (["new"] : List PathBuf) ≠ [] ∧
    exampleOpenState.path_cache.toFinset ∩ (["new"] : List PathBuf).toFinset = ∅ ∧
    (["old", "new"] : List PathBuf).toFinset =
      exampleOpenState.path_cache.toFinset ∪ (["new"] : List PathBuf).toFinset ∧
    ((loopBody (Except.ok ["old", "new"]) exampleOpenState).tx.buffer =
        exampleOpenState.tx.buffer ++
          [Except.ok { kind := EventKind.create,
                       paths := difference ["old", "new"] exampleOpenState.path_cache }] ∧
      (difference ["old", "new"] exampleOpenState.path_cache).toFinset =
        (["new"] : List PathBuf).toFinset) :=
  ⟨rfl, by decide, by decide, by decide,
    create_only_cycle exampleOpenState ["old", "new"] ["new"] rfl (by decide)
      (by decide) (by decide)⟩

/-- C2 (counterexample): the claim quantifies over every subset R of A,
including R = ∅.  Take cached A = {"a"} and R = ∅, so
current = A − R = {"a"}: the claim demands exactly one Remove event
(with `paths` = R), but the cycle enqueues no item at all —
`handle_deletes` returns before sending when the diff is empty. -/
theorem remove_only_cycle_cex :
    ¬ ∃ ev : Event, ev.kind = EventKind.remove ∧
      (loopBody (Except.ok (["a"] : List PathBuf))
          (dirWatcherInit (Except.ok ["a"]))).tx.buffer = [Except.ok ev] := by
  rintro ⟨ev, -, h⟩
  have h0 : (loopBody (Except.ok (["a"] : List PathBuf))
      (dirWatcherInit (Except.ok ["a"]))).tx.buffer = [] := by decide
  rw [h0] at h
  exact List.noConfusion h

/-- C2 (amended): for a cached path set A and a non-empty removed subset
R ⊆ A, a poll cycle that diffs cached = A against current = A − R
(channel open) enqueues exactly one item: a Remove event whose `paths`
is, as a set, exactly R — and in particular no Create event. -/
theorem remove_only_cycle (s : LoopState) (cur r : List PathBuf)
    (hopen : s.tx.isOpen = true) (hr : r ≠ [])
    (hsub : r.toFinset ⊆ s.path_cache.toFinset)
    (hcur : cur.toFinset = s.path_cache.toFinset \ r.toFinset) :
    (loopBody (Except.ok cur) s).tx.buffer =
      s.tx.buffer ++
        [Except.ok { kind := EventKind.remove, paths := difference s.path_cache cur }] ∧
    (difference s.path_cache cur).toFinset = r.toFinset := by
  have hmem : ∀ x : PathBuf, x ∈ cur ↔ x ∈ s.path_cache ∧ x ∉ r := by
    intro x
    have := Finset.ext_iff.1 hcur x
    simpa [List.mem_toFinset, Finset.mem_sdiff] using this
  have hrs : ∀ x : PathBuf, x ∈ r → x ∈ s.path_cache := by
    intro x hx
    exact List.mem_toFinset.1 (hsub (List.mem_toFinset.2 hx))
  have hset : (difference s.path_cache cur).toFinset = r.toFinset := by
    apply Finset.ext
    intro x
    simp only [List.mem_toFinset, mem_difference]
    constructor
    · rintro ⟨hxc, hxn⟩
      by_contra hxr
      exact hxn ((hmem x).2 ⟨hxc, hxr⟩)
    · intro hxr
      exact ⟨hrs x hxr, fun hxcur => ((hmem x).1 hxcur).2 hxr⟩
  have hcre : difference cur s.path_cache = [] :=
    difference_eq_nil_of_subset (fun x hx => ((hmem x).1 hx).1)
  obtain ⟨x0, hx0⟩ := List.exists_mem_of_ne_nil r hr
  have hrem : difference s.path_cache cur ≠ [] :=
    difference_ne_nil_of_mem (hrs x0 hx0) (fun hxcur => ((hmem x0).1 hxcur).2 hx0)
  refine ⟨?_, hset⟩
  simp [loopBody, handle_creates, handle_deletes, Channel.send, hopen, hcre, hrem]

/-- Witness for the amended C2: A = {"old"}, R = {"old"}, current = ∅. -/
theorem remove_only_cycle_witness :
    exampleOpenState.tx.isOpen = true ∧
    (["old"] : List PathBuf) ≠ [] ∧
    (["old"] : List PathBuf).toFinset ⊆ exampleOpenState.path_cache.toFinset ∧
    ([] : List PathBuf).toFinset =
      exampleOpenState.path_cache.toFinset \ (["old"] : List PathBuf).toFinset ∧
    ((loopBody (Except.ok []) exampleOpenState).tx.buffer =
        exampleOpenState.tx.buffer ++
          [Except.ok { kind := EventKind.remove,
                       paths := difference exampleOpenState.path_cache [] }] ∧
      (difference exampleOpenState.path_cache []).toFinset =
        (["old"] : List PathBuf).toFinset) :=
  ⟨rfl, by decide, by decide, by decide,
    remove_only_cycle exampleOpenState [] ["old"] rfl (by decide) (by decide) (by decide)⟩

/-- C6: when both diff sets of one cycle are non-empty (and the channel
is open), the cycle enqueues exactly two items, the Create event first
and the Remove event second — `handle_creates` runs before
`handle_deletes` in the loop body. -/
theorem creates_sent_before_removes (s : LoopState) (cur : List PathBuf)
    (hopen : s.tx.isOpen = true)
    (hc : difference cur s.path_cache ≠ [])
    (hd : difference s.path_cache cur ≠ []) :
    (loopBody (Except.ok cur) s).tx.buffer =
      s.tx.buffer ++
        [Except.ok { kind := EventKind.create, paths := difference cur s.path_cache },
         Except.ok { kind := EventKind.remove, paths := difference s.path_cache cur }] := by
  simp [loopBody, handle_creates, handle_deletes, Channel.send, hopen, hc, hd]

/-- Witness for C6: cached {"old"}, current {"new"} — one path created
and one removed in the same cycle. -/
theorem creates_sent_before_removes_witness :
    exampleOpenState.tx.isOpen = true ∧
    difference ["new"] exampleOpenState.path_cache ≠ [] ∧
    difference exampleOpenState.path_cache ["new"] ≠ [] ∧
    (loopBody (Except.ok ["new"]) exampleOpenState).tx.buffer =
      exampleOpenState.tx.buffer ++
        [Except.ok { kind := EventKind.create,
                     paths := difference ["new"] exampleOpenState.path_cache },
         Except.ok { kind := EventKind.remove,
                     paths := difference exampleOpenState.path_cache ["new"] }] :=
  ⟨rfl, by decide, by decide,
    creates_sent_before_removes exampleOpenState ["new"] rfl (by decide) (by decide)⟩

/-- C9 (counterexample): the synthesized event's path order is NOT a
function of the two snapshot sets alone.  The `paths` sequence is the
iteration order of `HashSet::difference`, and a `HashSet`'s iteration
order depends on its randomly seeded hasher state, so two runs can
present the same set in different orders.  Concretely: the same set
{"a", "b"} presented in its two possible iteration orders yields Create
events whose `paths` sequences differ. -/
theorem diff_order_not_function_of_sets_cex :
    (["a", "b"] : List PathBuf).Perm ["b", "a"] ∧
    (loopBody (Except.ok ["a", "b"]) (dirWatcherInit (Except.ok []))).tx.buffer ≠
      (loopBody (Except.ok ["b", "a"]) (dirWatcherInit (Except.ok []))).tx.buffer :=
  ⟨List.Perm.swap "b" "a" [], by decide⟩

/-- C9 (amended): the synthesized event's ordered `paths` sequence is
deterministic given the iteration orders of the two snapshot hash sets:
it is exactly the difference iterator's order (here, `items`).  It is
not deterministic as a function of the underlying sets, because a hash
set's iteration order is randomly seeded and may differ between runs. -/
theorem event_paths_equal_iteration_order (tx : Channel) (items : List PathBuf)
    (diags : List Diag) (hopen : tx.isOpen = true) (hne : items ≠ []) :
    (handle_creates tx items diags).1.buffer =
      tx.buffer ++ [Except.ok { kind := EventKind.create, paths := items }] ∧
    (handle_deletes tx items diags).1.buffer =
      tx.buffer ++ [Except.ok { kind := EventKind.remove, paths := items }] := by
  constructor <;> simp [handle_creates, handle_deletes, Channel.send, hopen, hne]

/-- Witness for the amended C9. -/
theorem event_paths_equal_iteration_order_witness :
    ({ isOpen := true, buffer := [] } : Channel).isOpen = true ∧
    (["a"] : List PathBuf) ≠ [] ∧
    ((handle_creates { isOpen := true, buffer := [] } ["a"] []).1.buffer =
        [] ++ [Except.ok { kind := EventKind.create, paths := ["a"] }] ∧
      (handle_deletes { isOpen := true, buffer := [] } ["a"] []).1.buffer =
        [] ++ [Except.ok { kind := EventKind.remove, paths := ["a"] }]) :=
  ⟨rfl, by decide,
    event_paths_equal_iteration_order { isOpen := true, buffer := [] } ["a"] []
      rfl (by decide)⟩

/-- C10: if the initial snapshot fails, nothing is sent into the channel
for that failure (the error goes only to the diagnostics sink, which
receives exactly one entry), the loop begins with an empty cached
snapshot, and the first successful cycle's items are diffs against the
empty set: with current paths `cur ≠ []`, the consumer's first visible
item is the Create event with `paths` = `cur`, with no error item
preceding it. -/
theorem init_failure_silent_empty_cache (e : IoError) (cur : List PathBuf)
    (hne : cur ≠ []) :
    (dirWatcherInit (Except.error e)).tx.buffer = [] ∧
    (dirWatcherInit (Except.error e)).path_cache = [] ∧
    (dirWatcherInit (Except.error e)).diags.length = 1 ∧
    (loopBody (Except.ok cur) (dirWatcherInit (Except.error e))).tx.buffer =
      [Except.ok { kind := EventKind.create, paths := cur }] := by
  refine ⟨rfl, rfl, rfl, ?_⟩
  have hdn : difference cur ([] : List PathBuf) = cur := by
    unfold difference
    rw [List.filter_eq_self]
    intro a _
    rfl
  have hd0 : difference ([] : List PathBuf) cur = [] := rfl
  simp [loopBody, dirWatcherInit, handle_creates, handle_deletes, Channel.send, hdn, hd0, hne]

/-- Witness for C10. -/
theorem init_failure_silent_empty_cache_witness :
    ((["f"] : List PathBuf) ≠ []) ∧
    ((dirWatcherInit (Except.error 0)).tx.buffer = [] ∧
      (dirWatcherInit (Except.error 0)).path_cache = [] ∧
      (dirWatcherInit (Except.error 0)).diags.length = 1 ∧
      (loopBody (Except.ok ["f"]) (dirWatcherInit (Except.error 0))).tx.buffer =
        [Except.ok { kind := EventKind.create, paths := ["f"] }]) :=
  ⟨by decide, init_failure_silent_empty_cache 0 ["f"] (by decide)⟩

/-- C8: the polling loop never terminates because a send failed.  With
the receiving half dropped (channel closed), a cycle enqueues nothing,
each attempted send produces at least one diagnostics entry instead, the
cycle still completes, and any number of further cycles all execute. -/
theorem send_failure_logged_loop_continues (s : LoopState) (res : ListResult)
    (inputs : List ListResult) (hclosed : s.tx.isOpen = false) :
    (loopBody res s).tx.buffer = s.tx.buffer ∧
    (loopBody res s).cycles = s.cycles + 1 ∧
    s.diags.length + attemptedSends res s.path_cache ≤ (loopBody res s).diags.length ∧
    (runBody inputs s).cycles = s.cycles + inputs.length := by
  refine ⟨?_, loopBody_cycles res s, ?_, runBody_cycles inputs s⟩
  · cases res with
    | error e => simp [loopBody, Channel.send, hclosed]
    | ok cur =>
        have h1 : (handle_creates s.tx (difference cur s.path_cache) s.diags).1 = s.tx :=
          handle_creates_closed _ _ _ hclosed
        have h2 : (handle_deletes s.tx (difference s.path_cache cur)
            (handle_creates s.tx (difference cur s.path_cache) s.diags).2).1 = s.tx :=
          handle_deletes_closed _ _ _ hclosed
        simp [loopBody, h1, h2]
  · cases res with
    | error e => simp [loopBody, Channel.send, hclosed, attemptedSends]
    | ok cur =>
        by_cases hcE : (difference cur s.path_cache).isEmpty = true <;>
          by_cases hdE : (difference s.path_cache cur).isEmpty = true <;>
            simp [loopBody, handle_creates, handle_deletes, Channel.send, hclosed,
              attemptedSends, hcE, hdE]

/-- Witness for C8: a closed channel, one cycle that would send a Remove
event, and two further cycles that all execute. -/
theorem send_failure_logged_loop_continues_witness :
    exampleClosedState.tx.isOpen = false ∧
    ((loopBody (Except.ok []) exampleClosedState).tx.buffer =
        exampleClosedState.tx.buffer ∧
      (loopBody (Except.ok []) exampleClosedState).cycles =
        exampleClosedState.cycles + 1 ∧
      exampleClosedState.diags.length +
          attemptedSends (Except.ok []) exampleClosedState.path_cache ≤
        (loopBody (Except.ok []) exampleClosedState).diags.length ∧
      (runBody [Except.ok [], Except.error 0] exampleClosedState).cycles =
        exampleClosedState.cycles + ([Except.ok [], Except.error 0] : List ListResult).length) :=
  ⟨rfl, send_failure_logged_loop_continues exampleClosedState (Except.ok [])
    [Except.ok [], Except.error 0] rfl⟩

/-- C4 (counterexample): the claim says `new(path)` returns an
`InitError` whenever the path does not exist or is not listable.  On the
macOS (polling) target this is false: `new` is unconditionally
`Ok(FileSystemWatcher(mac::dir_watcher(path)))` and has no failure path.
Concretely, in an environment where listing the path fails (the path
does not exist), the constructor still returns a ready handle. -/
theorem mac_new_never_errors_cex :
    (Except.error 0 : ListResult).isOk = false ∧
    (new_mac (Except.error 0)).isOk = true :=
  ⟨rfl, rfl⟩

/-- C4 (amended): on non-macOS targets, `new` propagates backend
initialization failures synchronously — it returns a handle iff watcher
creation, configuration and watch registration all succeed.  On macOS,
`new` always returns a ready handle synchronously, never an `InitError`;
path problems surface later inside the spawned polling task. -/
theorem new_error_propagation (env : NotifyBackendEnv) (initRes : ListResult) :
    ((new_notify env).isOk = true ↔
      (env.new_immediate.isOk = true ∧ env.configure.isOk = true ∧
        env.watch.isOk = true)) ∧
    (new_mac initRes).isOk = true := by
  constructor
  · cases h1 : env.new_immediate <;> cases h2 : env.configure <;>
      cases h3 : env.watch <;>
        simp [new_notify, h1, h2, h3, Except.isOk, Except.toBool, Bind.bind, Except.bind]
  · rfl

end FsWatch
